import Mathlib

/-!
# Dragonfly mesh/geometry model: shallow embedding

Embedding of the geometry catalog and figure selector of the `dragonfly`
repository (src/vertex/mod.rs, src/vertex/vertex.rs, src/core/vertex.rs,
src/dragonfly.rs, src/context.rs).

Conventions of the embedding:
* `f32` values are idealized as real numbers (`ℝ`); `f32::sin`, `f32::cos`
  and `std::f32::consts::PI` become `Real.sin`, `Real.cos`, `Real.pi`.
* `u32` and `u16` arithmetic is modeled on `Nat` with explicit reduction
  modulo `2^32` resp. `2^16` exactly where the Rust code can overflow or
  truncate (`num_segments + 1` in `u32`, the `as u16` cast, `i + 1` in
  `u16`, `fig_idx + 1` in `u8`). Rust's half-open range `a..b` becomes
  `List.range' a (b - a)` (empty when `b ≤ a`, as in Rust).
-/

namespace Dragonfly

/-- A vertex as in `src/vertex/vertex.rs`: a 3D position and an RGB color,
each three `f32` components, idealized here as real numbers. -/
structure Vertex where
  position : ℝ × ℝ × ℝ
  color : ℝ × ℝ × ℝ

/-- The `Figure` enum of `src/vertex/mod.rs`: five fixed polygons and a
parametric circle whose field is a `u32` segment count. -/
inductive Figure where
  | Triangle
  | Pentagon
  | Rectangle
  | Trapezoid
  | Parallelogram
  | Circle (numSegments : Nat)
deriving DecidableEq, Repr

/-- The closure body of the circle branch of `Mesh::get_vertices`
(src/vertex/mod.rs lines 136-146): rim vertex `i` of a circle with
`numSegments` segments, at angle `i * 2π / numSegments`. -/
noncomputable def circleRimVertex (numSegments i : Nat) : Vertex :=
  let angle : ℝ := (i : ℝ) * (2 * Real.pi) / (numSegments : ℝ)
  { position := (0.5 * Real.cos angle, 0.5 * Real.sin angle, 0)
    color := (Real.sin angle,
              Real.sin (angle + 2 * (2 * Real.pi) / 6),
              Real.sin (angle + 4 * (2 * Real.pi) / 6)) }

/-- `Mesh::get_vertices` for `Figure` (src/vertex/mod.rs lines 37-152).
The circle branch prepends the mid-gray center to the `num_segments + 1`
rim vertices produced by mapping over `0..(num_segments + 1)`; the `u32`
sum `num_segments + 1` is reduced modulo `2^32`. -/
noncomputable def Figure.getVertices : Figure → List Vertex
  | .Triangle =>
      [ { position := (0, 0.5, 0), color := (1, 0, 0) },
        { position := (-0.5, -0.5, 0), color := (0, 1, 0) },
        { position := (0.5, -0.5, 0), color := (0, 0, 1) } ]
  | .Pentagon =>
      [ { position := (-0.0868241, 0.49240386, 0), color := (1, 0, 0) },
        { position := (-0.49513406, 0.06958647, 0), color := (0.5, 0.5, 0) },
        { position := (-0.21918549, -0.44939706, 0), color := (0, 1, 0) },
        { position := (0.35966998, -0.3473291, 0), color := (0, 0.5, 0.5) },
        { position := (0.44147372, 0.2347359, 0), color := (0, 0, 1) } ]
  | .Rectangle =>
      [ { position := (-0.5, 0.25, 0), color := (1, 0, 0) },
        { position := (-0.5, -0.25, 0), color := (0.5, 0.5, 0) },
        { position := (0.5, -0.25, 0), color := (0, 0.5, 0.5) },
        { position := (0.5, 0.25, 0), color := (0, 0, 1) } ]
  | .Trapezoid =>
      [ { position := (-0.25, 0.5, 0), color := (1, 0, 0) },
        { position := (-0.5, -0.5, 0), color := (0.5, 0.5, 0) },
        { position := (0.5, -0.5, 0), color := (0, 0.5, 0.5) },
        { position := (0.25, 0.5, 0), color := (0, 0, 1) } ]
  | .Parallelogram =>
      [ { position := (-0.25, 0.5, 0), color := (1, 0, 0) },
        { position := (-0.5, -0.5, 0), color := (0.5, 0.5, 0) },
        { position := (0.25, -0.5, 0), color := (0, 0.5, 0.5) },
        { position := (0.5, 0.5, 0), color := (0, 0, 1) } ]
  | .Circle numSegments =>
      { position := (0, 0, 0), color := (0.5, 0.5, 0.5) } ::
      (List.range ((numSegments + 1) % 4294967296)).map
        (circleRimVertex numSegments)

/-- `Mesh::get_indices` for `Figure` (src/vertex/mod.rs lines 154-167).
Index values are `u16`; the circle branch iterates the Rust range
`1..((num_segments + 1) as u16)` — the `u32` sum is reduced modulo `2^32`
and the `as u16` cast modulo `2^16` — emitting `[0, i, i + 1]` for each
`i`, with the `u16` increment `i + 1` reduced modulo `2^16`. -/
def Figure.getIndices : Figure → List Nat
  | .Triangle => [0, 1, 2]
  | .Pentagon => [0, 1, 4, 1, 2, 4, 2, 3, 4]
  | .Rectangle | .Trapezoid | .Parallelogram => [0, 1, 3, 1, 2, 3]
  | .Circle numSegments =>
      (List.range' 1 (((numSegments + 1) % 4294967296) % 65536 - 1)).flatMap
        (fun i => [0, i, (i + 1) % 65536])

/-- `Figure::get_figure` (src/vertex/mod.rs lines 175-185): total mapping
from a `u8` ordinal to a figure, defaulting to `Triangle`. -/
def Figure.getFigure (i : Nat) : Figure :=
  match i with
  | 0 => .Triangle
  | 1 => .Pentagon
  | 2 => .Rectangle
  | 3 => .Trapezoid
  | 4 => .Parallelogram
  | 5 => .Circle 64
  | _ => .Triangle

/-- The figure selector's advance transition (src/dragonfly.rs lines
110-116): `new_fig_idx = (fig_idx + 1) % 6` on a `u8` state, the `u8`
increment reduced modulo `2^8`. -/
def advance (state : Nat) : Nat := ((state + 1) % 256) % 6

/-- The selector's initial state, `fig_idx = 0` (src/context.rs line 164). -/
def initialFigIdx : Nat := 0

/-- `TRIANGLE_INDICES` of the superseded revision src/core/vertex.rs. -/
def TRIANGLE_INDICES : List Nat := [0, 1, 2]

/-- `PENTAGON_INDICES` of the superseded revision src/core/vertex.rs. -/
def PENTAGON_INDICES : List Nat := [0, 1, 4, 1, 2, 4, 2, 3, 4]

/-- `RECTANGLE_INDICES` of the superseded revision src/core/vertex.rs. -/
def RECTANGLE_INDICES : List Nat := [0, 1, 3, 1, 2, 3]

/-- `TRAPEZOID_INDICES` of the superseded revision src/core/vertex.rs. -/
def TRAPEZOID_INDICES : List Nat := [0, 1, 2, 0, 2, 3]

/-- `PARALLELOGRAM_INDICES` of the superseded revision src/core/vertex.rs. -/
def PARALLELOGRAM_INDICES : List Nat := [0, 1, 2, 0, 2, 3]

/-- The three color components of a vertex, as a list. -/
def colorComponents (v : Vertex) : List ℝ :=
  [v.color.1, v.color.2.1, v.color.2.2]

/-! ## Helper lemmas -/

lemma circle_getVertices_eq (n : Nat) (h : n ≤ 4294967294) :
    Figure.getVertices (Figure.Circle n)
      = { position := (0, 0, 0), color := (0.5, 0.5, 0.5) } ::
        (List.range (n + 1)).map (circleRimVertex n) := by
  have h1 : (n + 1) % 4294967296 = n + 1 := Nat.mod_eq_of_lt (by omega)
  simp only [Figure.getVertices, h1]

lemma flatMap_triple_mod (l : List Nat) (h : ∀ i ∈ l, i + 1 < 65536) :
    l.flatMap (fun i => ([0, i, (i + 1) % 65536] : List Nat))
      = l.flatMap (fun i => [0, i, i + 1]) := by
  induction l with
  | nil => rfl
  | cons a t ih =>
      have ha : a + 1 < 65536 := h a (List.mem_cons_self a t)
      simp only [List.flatMap_cons, Nat.mod_eq_of_lt ha]
      rw [ih (fun i hi => h i (List.mem_cons_of_mem a hi))]

lemma circle_getIndices_eq (n : Nat) (h : n ≤ 65534) :
    Figure.getIndices (Figure.Circle n)
      = (List.range' 1 n).flatMap (fun i => [0, i, i + 1]) := by
  have h1 : (n + 1) % 4294967296 = n + 1 := Nat.mod_eq_of_lt (by omega)
  have h2 : (n + 1) % 65536 = n + 1 := Nat.mod_eq_of_lt (by omega)
  simp only [Figure.getIndices, h1, h2, Nat.add_sub_cancel]
  refine flatMap_triple_mod _ (fun i hi => ?_)
  rcases List.mem_range'.mp hi with ⟨k, hk, rfl⟩
  omega

lemma length_flatMap_triple (l : List Nat) :
    (l.flatMap (fun i => ([0, i, i + 1] : List Nat))).length = 3 * l.length := by
  induction l with
  | nil => rfl
  | cons a t ih =>
      have h3 : ([0, a, a + 1] : List Nat).length = 3 := rfl
      rw [List.flatMap_cons, List.length_append, ih, h3, List.length_cons]
      omega

lemma circle_getVertices_getElem (n i : Nat) (h2 : n ≤ 4294967294)
    (hi : i ≤ n) :
    (Figure.getVertices (Figure.Circle n))[i + 1]?
      = some (circleRimVertex n i) := by
  rw [circle_getVertices_eq n h2, List.getElem?_cons_succ, List.getElem?_map,
    List.getElem?_range (by omega)]
  rfl

lemma circleRimVertex_closing (n : Nat) (h1 : 1 ≤ n) :
    circleRimVertex n n = circleRimVertex n 0 := by
  have hn : (n : ℝ) ≠ 0 := Nat.cast_ne_zero.mpr (by omega)
  have hA : (n : ℝ) * (2 * Real.pi) / (n : ℝ) = 2 * Real.pi :=
    mul_div_cancel_left₀ _ hn
  simp only [circleRimVertex, Nat.cast_zero, zero_mul, zero_div, hA]
  rw [add_comm (2 * Real.pi) (2 * (2 * Real.pi) / 6),
    add_comm (2 * Real.pi) (4 * (2 * Real.pi) / 6),
    Real.sin_add_two_pi, Real.sin_add_two_pi, Real.cos_two_pi,
    Real.sin_two_pi, Real.cos_zero, Real.sin_zero, zero_add, zero_add]

/-! ## Claim theorems -/

/-- C5: for every fixed polygon (Triangle, Pentagon, Rectangle, Trapezoid,
Parallelogram), every index value returned by `get_indices` is strictly
less than the length of the vertex list returned by `get_vertices`. -/
theorem fixed_polygon_indices_lt_vertex_count :
    (∀ i ∈ Figure.getIndices Figure.Triangle,
      i < (Figure.getVertices Figure.Triangle).length) ∧
    (∀ i ∈ Figure.getIndices Figure.Pentagon,
      i < (Figure.getVertices Figure.Pentagon).length) ∧
    (∀ i ∈ Figure.getIndices Figure.Rectangle,
      i < (Figure.getVertices Figure.Rectangle).length) ∧
    (∀ i ∈ Figure.getIndices Figure.Trapezoid,
      i < (Figure.getVertices Figure.Trapezoid).length) ∧
    (∀ i ∈ Figure.getIndices Figure.Parallelogram,
      i < (Figure.getVertices Figure.Parallelogram).length) := by
  refine ⟨?_, ?_, ?_, ?_, ?_⟩ <;> decide

/-- Witness for C5 at the Triangle's first index. -/
theorem fixed_polygon_indices_lt_vertex_count_witness :
    (0 : Nat) ∈ Figure.getIndices Figure.Triangle ∧
    (0 : Nat) < (Figure.getVertices Figure.Triangle).length :=
  ⟨by decide, fixed_polygon_indices_lt_vertex_count.1 0 (by decide)⟩

/-- C6: the selector's advance transition is `state ↦ (state + 1) mod 6`
with initial state 0; six advances return to the start on `[0, 6)`, one
advance from 5 yields 0, and one advance from 0 yields 1. -/
theorem advance_mod_six :
    (∀ s : Nat, s < 6 → advance s = (s + 1) % 6) ∧
    initialFigIdx = 0 ∧
    (∀ s : Nat, s < 6 → advance^[6] s = s) ∧
    advance 5 = 0 ∧ advance 0 = 1 := by
  refine ⟨?_, rfl, ?_, rfl, rfl⟩ <;> decide

/-- Witness for C6: six advances from ordinal 3 return to 3. -/
theorem advance_mod_six_witness : advance^[6] 3 = 3 :=
  advance_mod_six.2.2.1 3 (by decide)

/-- C7: `Figure::get_figure` is total on `u8` ordinals, mapping 0..5 to the
six catalog entries and every ordinal ≥ 6 to Triangle. -/
theorem getFigure_total_mapping :
    Figure.getFigure 0 = Figure.Triangle ∧
    Figure.getFigure 1 = Figure.Pentagon ∧
    Figure.getFigure 2 = Figure.Rectangle ∧
    Figure.getFigure 3 = Figure.Trapezoid ∧
    Figure.getFigure 4 = Figure.Parallelogram ∧
    Figure.getFigure 5 = Figure.Circle 64 ∧
    ∀ i : Nat, i < 256 → 6 ≤ i → Figure.getFigure i = Figure.Triangle := by
  refine ⟨rfl, rfl, rfl, rfl, rfl, rfl, ?_⟩
  intro i _ h6
  obtain ⟨m, rfl⟩ : ∃ m, i = m + 6 := ⟨i - 6, by omega⟩
  rfl

/-- Witness for C7 at the out-of-range ordinal 100. -/
theorem getFigure_total_mapping_witness :
    Figure.getFigure 100 = Figure.Triangle :=
  getFigure_total_mapping.2.2.2.2.2.2 100 (by decide) (by decide)

/-- C8: the fixed polygon tables have exactly the stated sizes and index
sequences: Triangle 3 vertices / indices `[0,1,2]`; Pentagon 5 vertices /
9-index fan `[0,1,4,1,2,4,2,3,4]`; Rectangle, Trapezoid, Parallelogram
4 vertices / 6 indices each. -/
theorem fixed_polygon_table_sizes :
    (Figure.getVertices Figure.Triangle).length = 3 ∧
    Figure.getIndices Figure.Triangle = [0, 1, 2] ∧
    (Figure.getVertices Figure.Pentagon).length = 5 ∧
    Figure.getIndices Figure.Pentagon = [0, 1, 4, 1, 2, 4, 2, 3, 4] ∧
    (Figure.getVertices Figure.Rectangle).length = 4 ∧
    (Figure.getIndices Figure.Rectangle).length = 6 ∧
    (Figure.getVertices Figure.Trapezoid).length = 4 ∧
    (Figure.getIndices Figure.Trapezoid).length = 6 ∧
    (Figure.getVertices Figure.Parallelogram).length = 4 ∧
    (Figure.getIndices Figure.Parallelogram).length = 6 :=
  ⟨rfl, rfl, rfl, rfl, rfl, rfl, rfl, rfl, rfl, rfl⟩

/-- C9 counterexample: the two revisions of the catalog AGREE on the
rectangle — both give `[0,1,3,1,2,3]`, and neither gives `[0,1,2,0,2,3]`,
contrary to the claim that the rectangle's indices appear as both. -/
theorem rectangle_indices_no_divergence :
    Figure.getIndices Figure.Rectangle = [0, 1, 3, 1, 2, 3] ∧
    RECTANGLE_INDICES = [0, 1, 3, 1, 2, 3] ∧
    Figure.getIndices Figure.Rectangle ≠ [0, 1, 2, 0, 2, 3] ∧
    RECTANGLE_INDICES ≠ ([0, 1, 2, 0, 2, 3] : List Nat) :=
  ⟨rfl, rfl, by decide, by decide⟩

/-- C9 amended: the revisions agree on the rectangle (`[0,1,3,1,2,3]` in
both) but disagree on the trapezoid and the parallelogram: vertex/mod.rs
gives `[0,1,3,1,2,3]` where core/vertex.rs gives `[0,1,2,0,2,3]`. -/
theorem revision_divergence_trapezoid_parallelogram :
    Figure.getIndices Figure.Rectangle = RECTANGLE_INDICES ∧
    Figure.getIndices Figure.Trapezoid = [0, 1, 3, 1, 2, 3] ∧
    TRAPEZOID_INDICES = [0, 1, 2, 0, 2, 3] ∧
    Figure.getIndices Figure.Trapezoid ≠ TRAPEZOID_INDICES ∧
    Figure.getIndices Figure.Parallelogram = [0, 1, 3, 1, 2, 3] ∧
    PARALLELOGRAM_INDICES = [0, 1, 2, 0, 2, 3] ∧
    Figure.getIndices Figure.Parallelogram ≠ PARALLELOGRAM_INDICES :=
  ⟨rfl, rfl, rfl, by decide, rfl, rfl, by decide⟩

/-- C10: for every 1 ≤ n ≤ 65534 the circle index generation suffers no
u16 truncation (the cast of the loop bound `n + 1` is exact), the emitted
indices equal the unreduced fan (so the u16 increment `i + 1` never
wraps), and every emitted index is strictly less than the vertex count
`n + 2`; at n = 65535 the cast truncates. -/
theorem circle_indices_no_overflow :
    (∀ n : Nat, 1 ≤ n → n ≤ 65534 →
      ((n + 1) % 4294967296) % 65536 = n + 1 ∧
      Figure.getIndices (Figure.Circle n)
        = (List.range' 1 n).flatMap (fun i => [0, i, i + 1]) ∧
      ∀ i ∈ Figure.getIndices (Figure.Circle n), i < n + 2) ∧
    ((65535 + 1) % 4294967296) % 65536 ≠ 65535 + 1 := by
  constructor
  · intro n h1 h2
    refine ⟨by omega, circle_getIndices_eq n h2, ?_⟩
    intro i hi
    rw [circle_getIndices_eq n h2] at hi
    rcases List.mem_flatMap.mp hi with ⟨a, ha, hia⟩
    rcases List.mem_range'.mp ha with ⟨k, hk, rfl⟩
    simp only [List.mem_cons, List.not_mem_nil, or_false] at hia
    omega
  · decide

/-- Witness for C10 at n = 64. -/
theorem circle_indices_no_overflow_witness :
    ((64 + 1) % 4294967296) % 65536 = 64 + 1 ∧
    Figure.getIndices (Figure.Circle 64)
      = (List.range' 1 64).flatMap (fun i => [0, i, i + 1]) ∧
    ∀ i ∈ Figure.getIndices (Figure.Circle 64), i < 64 + 2 :=
  circle_indices_no_overflow.1 64 (by norm_num) (by norm_num)

/-- C2 (amended: for 1 ≤ n ≤ 65534, not every n ≥ 1): the circle's index
sequence is the concatenation of the triples (0, i, i+1) for i = 1..n,
3n indices in total; Circle(64) yields 66 vertices and 192 indices. -/
theorem circle_index_fan (n : Nat) (_h1 : 1 ≤ n) (h2 : n ≤ 65534) :
    Figure.getIndices (Figure.Circle n)
      = (List.range' 1 n).flatMap (fun i => [0, i, i + 1]) ∧
    (Figure.getIndices (Figure.Circle n)).length = 3 * n ∧
    (Figure.getVertices (Figure.Circle 64)).length = 66 ∧
    (Figure.getIndices (Figure.Circle 64)).length = 192 := by
  refine ⟨circle_getIndices_eq n h2, ?_, ?_, ?_⟩
  · rw [circle_getIndices_eq n h2, length_flatMap_triple, List.length_range']
  · rw [circle_getVertices_eq 64 (by norm_num), List.length_cons,
      List.length_map, List.length_range]
  · rw [circle_getIndices_eq 64 (by norm_num), length_flatMap_triple,
      List.length_range']

/-- Witness for C2 at n = 4. -/
theorem circle_index_fan_witness :
    Figure.getIndices (Figure.Circle 4)
      = (List.range' 1 4).flatMap (fun i => [0, i, i + 1]) ∧
    (Figure.getIndices (Figure.Circle 4)).length = 3 * 4 :=
  ⟨(circle_index_fan 4 (by norm_num) (by norm_num)).1,
   (circle_index_fan 4 (by norm_num) (by norm_num)).2.1⟩

/-- C2 counterexample at n = 65535: `(n + 1) as u16` truncates the loop
bound to 0, so `get_indices` returns the empty list instead of the
3·65535-element fan the claim demands for every n ≥ 1. -/
theorem circle_index_fan_cex :
    Figure.getIndices (Figure.Circle 65535) = [] ∧
    ((List.range' 1 65535).flatMap
        (fun i => ([0, i, i + 1] : List Nat))).length = 3 * 65535 ∧
    Figure.getIndices (Figure.Circle 65535)
      ≠ (List.range' 1 65535).flatMap (fun i => [0, i, i + 1]) := by
  refine ⟨rfl, ?_, ?_⟩
  · rw [length_flatMap_triple, List.length_range']
  · intro h
    have hl := congrArg List.length h
    rw [length_flatMap_triple, List.length_range'] at hl
    have h0 : (Figure.getIndices (Figure.Circle 65535)).length = 0 := rfl
    omega

/-- C4 counterexample: with segments = 0 the generator emits TWO vertices
(the center plus one rim vertex, since the range `0..(0 + 1)` is
nonempty), not the single center vertex the claim states. -/
theorem circle_zero_segments_cex :
    (Figure.getVertices (Figure.Circle 0)).length = 2 ∧ (2 : Nat) ≠ 1 :=
  ⟨rfl, by decide⟩

/-- C4 amended: with segments = 0 the generator produces the degenerate
output of two vertices — the center first, plus one rim vertex whose
angle `0·2π/0` divides by zero — and no triangle indices; it performs no
validation (generation is total, so no runtime fault is signaled). -/
theorem circle_zero_segments_spec :
    (Figure.getVertices (Figure.Circle 0)).length = 2 ∧
    (Figure.getVertices (Figure.Circle 0))[0]?
      = some { position := (0, 0, 0), color := (0.5, 0.5, 0.5) } ∧
    Figure.getIndices (Figure.Circle 0) = [] :=
  ⟨rfl, rfl, rfl⟩

/-- C1 (amended: for 1 ≤ n ≤ 2^32 − 2, not every n ≥ 1): `get_vertices` on
Circle(n) returns n + 2 vertices; vertex 0 is the center at the origin
with mid-gray color (0.5, 0.5, 0.5); for every i ≤ n, vertex i + 1 has
position (0.5·cos θ, 0.5·sin θ, 0) and color
(sin θ, sin(θ + 2π/3), sin(θ + 4π/3)) with θ = i·2π/n; the closing rim
vertex (i = n) repeats the starting one (i = 0). -/
theorem circle_vertices_spec (n : Nat) (h1 : 1 ≤ n) (h2 : n ≤ 4294967294) :
    (Figure.getVertices (Figure.Circle n)).length = n + 2 ∧
    (Figure.getVertices (Figure.Circle n))[0]?
      = some { position := (0, 0, 0), color := (0.5, 0.5, 0.5) } ∧
    (∀ i : Nat, i ≤ n →
      (Figure.getVertices (Figure.Circle n))[i + 1]?
        = some { position :=
                   (0.5 * Real.cos ((i : ℝ) * (2 * Real.pi) / (n : ℝ)),
                    0.5 * Real.sin ((i : ℝ) * (2 * Real.pi) / (n : ℝ)), 0)
                 color :=
                   (Real.sin ((i : ℝ) * (2 * Real.pi) / (n : ℝ)),
                    Real.sin ((i : ℝ) * (2 * Real.pi) / (n : ℝ)
                      + 2 * Real.pi / 3),
                    Real.sin ((i : ℝ) * (2 * Real.pi) / (n : ℝ)
                      + 4 * Real.pi / 3)) }) ∧
    (Figure.getVertices (Figure.Circle n))[n + 1]?
      = (Figure.getVertices (Figure.Circle n))[1]? := by
  refine ⟨?_, ?_, ?_, ?_⟩
  · rw [circle_getVertices_eq n h2, List.length_cons, List.length_map,
      List.length_range]
  · rw [circle_getVertices_eq n h2]
    exact List.getElem?_cons_zero
  · intro i hi
    rw [circle_getVertices_getElem n i h2 hi]
    refine congrArg some ?_
    simp only [circleRimVertex]
    rw [show 2 * (2 * Real.pi) / 6 = 2 * Real.pi / 3 by ring,
      show 4 * (2 * Real.pi) / 6 = 4 * Real.pi / 3 by ring]
  · rw [circle_getVertices_getElem n n h2 le_rfl]
    have h0 : (Figure.getVertices (Figure.Circle n))[(0 : Nat) + 1]?
        = some (circleRimVertex n 0) :=
      circle_getVertices_getElem n 0 h2 (by omega)
    norm_num at h0
    rw [h0, circleRimVertex_closing n h1]

/-- Witness for C1 at n = 4: the generator yields 4 + 2 vertices. -/
theorem circle_vertices_spec_witness :
    (Figure.getVertices (Figure.Circle 4)).length = 4 + 2 :=
  (circle_vertices_spec 4 (by norm_num) (by norm_num)).1

/-- C1 counterexample at n = 2^32 − 1: the u32 sum `n + 1` wraps to 0, so
`get_vertices` returns only the center vertex — 1 vertex, not n + 2. -/
theorem circle_vertices_overflow_cex :
    (Figure.getVertices (Figure.Circle 4294967295)).length = 1 ∧
    (1 : Nat) ≠ 4294967295 + 2 :=
  ⟨rfl, by decide⟩

/-- C3 counterexample: on Circle(1) the claim "every color component lies
in [0, 1]" fails — the first rim vertex (angle 0) has third color
component sin(4π/3) = −√3/2 < 0. -/
theorem color_in_unit_interval_cex :
    ¬ ∀ v ∈ Figure.getVertices (Figure.Circle 1),
        ∀ c ∈ colorComponents v, 0 ≤ c ∧ c ≤ 1 := by
  intro hall
  have hmem : circleRimVertex 1 0 ∈ Figure.getVertices (Figure.Circle 1) := by
    rw [circle_getVertices_eq 1 (by norm_num)]
    exact List.mem_cons_of_mem _
      (List.mem_map_of_mem _ (List.mem_range.mpr (by norm_num)))
  have h3 : (circleRimVertex 1 0).color.2.2
      ∈ colorComponents (circleRimVertex 1 0) := by
    simp [colorComponents]
  have hval : (circleRimVertex 1 0).color.2.2
      = Real.sin (((0 : Nat) : ℝ) * (2 * Real.pi) / ((1 : Nat) : ℝ)
          + 4 * (2 * Real.pi) / 6) := rfl
  have harg : ((0 : Nat) : ℝ) * (2 * Real.pi) / ((1 : Nat) : ℝ)
      + 4 * (2 * Real.pi) / 6 = Real.pi / 3 + Real.pi := by
    push_cast
    ring
  have hneg : (circleRimVertex 1 0).color.2.2 < 0 := by
    rw [hval, harg, Real.sin_add_pi, Real.sin_pi_div_three]
    have : (0 : ℝ) < Real.sqrt 3 / 2 := by
      have h3pos : (0 : ℝ) < Real.sqrt 3 := Real.sqrt_pos.mpr (by norm_num)
      linarith
    linarith
  have hpos := (hall _ hmem _ h3).1
  linarith

/-- C3 amended: every color component of every vertex of the five fixed
polygons lies in [0, 1]; for circles the center's components lie in
[0, 1] as well, but the sine-generated rim components are only bounded
in [−1, 1] (and do go negative). -/
theorem color_components_bounded :
    (∀ fig ∈ [Figure.Triangle, Figure.Pentagon, Figure.Rectangle,
        Figure.Trapezoid, Figure.Parallelogram],
      ∀ v ∈ Figure.getVertices fig, ∀ c ∈ colorComponents v,
        0 ≤ c ∧ c ≤ 1) ∧
    (∀ n : Nat, ∀ v ∈ Figure.getVertices (Figure.Circle n),
      ∀ c ∈ colorComponents v, -1 ≤ c ∧ c ≤ 1) := by
  constructor
  · intro fig hfig
    fin_cases hfig <;> norm_num [Figure.getVertices, colorComponents]
  · intro n v hv c hc
    simp only [Figure.getVertices] at hv
    rcases List.mem_cons.mp hv with rfl | hv2
    · simp only [colorComponents, List.mem_cons, List.not_mem_nil,
        or_false] at hc
      rcases hc with rfl | rfl | rfl <;> norm_num
    · rcases List.mem_map.mp hv2 with ⟨i, _, rfl⟩
      simp only [colorComponents, circleRimVertex, List.mem_cons,
        List.not_mem_nil, or_false] at hc
      rcases hc with rfl | rfl | rfl <;>
        exact ⟨Real.neg_one_le_sin _, Real.sin_le_one _⟩

/-- Witness for C3 (amended) at the Triangle's first vertex, red component. -/
theorem color_components_bounded_witness : (0 : ℝ) ≤ 1 ∧ (1 : ℝ) ≤ 1 :=
  color_components_bounded.1 Figure.Triangle (by simp)
    { position := (0, 0.5, 0), color := (1, 0, 0) }
    (by simp [Figure.getVertices]) 1 (by simp [colorComponents])

end Dragonfly
